import Mathlib

/-!
Verification development for the sy-photos indexing/caching engine
(`src/lib/scanner.ts`) and narrative selection engine (`src/lib/stories.ts`).

The TypeScript source is shallowly embedded: JS `Map`s become insertion-ordered
association lists, filesystem reads become explicit inputs (a scan receives the
list of walked photo files together with each file's stat mtime and the result
of the two metadata extractors), `Math.random()` becomes a supply `g : Nat → Nat`
where the JS idiom `Math.floor(Math.random() * n)` is modelled as `g k % n` for
the k-th call, and JS dates are modelled at calendar-day granularity (year,
0-based month, day-of-month), with `new Date(y, m, d)` day rollover reproduced
by ordinal arithmetic.  Code that can throw a `TypeError` is modelled in
`Except String`.
-/

namespace SyPhotos

/-! ### Insertion-ordered maps (JS `Map` semantics) -/

/-- JS `Map.set`: overwrite in place if the key exists (keeping its position),
otherwise append at the end. -/
def mset [DecidableEq κ] (k : κ) (v : β) : List (κ × β) → List (κ × β)
  | [] => [(k, v)]
  | (k₀, v₀) :: rest => if k₀ = k then (k, v) :: rest else (k₀, v₀) :: mset k v rest

/-- JS `Map.get`. -/
def mget [DecidableEq κ] (k : κ) : List (κ × β) → Option β
  | [] => none
  | (k₀, v₀) :: rest => if k₀ = k then some v₀ else mget k rest

theorem mget_mset_self [DecidableEq κ] (k : κ) (v : β) (m : List (κ × β)) :
    mget k (mset k v m) = some v := by
  induction m with
  | nil => simp [mset, mget]
  | cons hd tl ih =>
    obtain ⟨k₀, v₀⟩ := hd
    by_cases h : k₀ = k <;> simp [mset, mget, h, ih]

theorem mem_mset [DecidableEq κ] (k : κ) (v : β) (m : List (κ × β)) (x : κ × β)
    (hx : x ∈ mset k v m) : x = (k, v) ∨ x ∈ m := by
  induction m with
  | nil => simpa [mset] using hx
  | cons hd tl ih =>
    obtain ⟨k₀, v₀⟩ := hd
    by_cases h : k₀ = k
    · simp [mset, h] at hx
      rcases hx with h1 | h2
      · exact Or.inl (by simp [h1])
      · exact Or.inr (by simp [h2])
    · simp [mset, h] at hx
      rcases hx with h1 | h2
      · exact Or.inr (by simp [h1])
      · rcases ih h2 with h3 | h4
        · exact Or.inl h3
        · exact Or.inr (by simp [h4])

theorem mget_mem [DecidableEq κ] (k : κ) (v : β) (m : List (κ × β))
    (h : mget k m = some v) : (k, v) ∈ m := by
  induction m with
  | nil => simp [mget] at h
  | cons hd tl ih =>
    obtain ⟨k₀, v₀⟩ := hd
    by_cases hk : k₀ = k
    · simp [mget, hk] at h
      simp [hk, h]
    · simp [mget, hk] at h
      exact List.mem_cons_of_mem _ (ih h)

/-! ### Small JS helpers -/

/-- Truthiness of an optional JS string (`undefined` and `""` are falsy). -/
def truthyStr : Option String → Bool
  | none => false
  | some s => s ≠ ""

/-- Truthiness of an optional JS number (`undefined` and `0` are falsy). -/
def truthyNum : Option ℚ → Bool
  | none => false
  | some q => q ≠ 0

/-- JS `[...new Set(xs)]`: deduplicate keeping first occurrences, in order. -/
def uniqFirstGo [DecidableEq α] (seen : List α) : List α → List α
  | [] => []
  | a :: rest => if a ∈ seen then uniqFirstGo seen rest else a :: uniqFirstGo (a :: seen) rest

def uniqFirst [DecidableEq α] (l : List α) : List α := uniqFirstGo [] l

/-- Stable insertion sort; `le a b` means a may be placed before b.  Models the
stability guaranteed for JS `Array.prototype.sort`. -/
def insSorted (le : α → α → Bool) (a : α) : List α → List α
  | [] => [a]
  | b :: rest => if le a b then a :: b :: rest else b :: insSorted le a rest

def stableSort (le : α → α → Bool) (l : List α) : List α := l.foldr (insSorted le) []

/-- One UTF-8 encoded character, as byte values. -/
def utf8Bytes (c : Char) : List Nat :=
  let n := c.toNat
  if n < 0x80 then [n]
  else if n < 0x800 then [0xC0 + n / 0x40, 0x80 + n % 0x40]
  else if n < 0x10000 then [0xE0 + n / 0x1000, 0x80 + n / 0x40 % 0x40, 0x80 + n % 0x40]
  else [0xF0 + n / 0x40000, 0x80 + n / 0x1000 % 0x40, 0x80 + n / 0x40 % 0x40, 0x80 + n % 0x40]

/-- The base64url alphabet. -/
def b64Char (n : Nat) : Char :=
  if n < 26 then Char.ofNat (65 + n)
  else if n < 52 then Char.ofNat (97 + (n - 26))
  else if n < 62 then Char.ofNat (48 + (n - 52))
  else if n = 62 then Char.ofNat 45
  else Char.ofNat 95

/-- Node `Buffer.toString("base64url")`: base64url without padding. -/
def b64urlEncode : List Nat → List Char
  | [] => []
  | [a] => [b64Char (a / 4), b64Char (a % 4 * 16)]
  | [a, b] => [b64Char (a / 4), b64Char (a % 4 * 16 + b / 16), b64Char (b % 16 * 4)]
  | a :: b :: c :: rest =>
      b64Char (a / 4) :: b64Char (a % 4 * 16 + b / 16) ::
        b64Char (b % 16 * 4 + c / 64) :: b64Char (c % 64) :: b64urlEncode rest

/-- Does `p` occur at the head of `s`? -/
def leadsWith [DecidableEq α] : List α → List α → Bool
  | [], _ => true
  | _ :: _, [] => false
  | a :: p, b :: s => a = b && leadsWith p s

/-- JS `s.replace(pat, "")`: remove the first occurrence of `pat` (an empty
pattern matches at index 0, removing nothing). -/
def removeFirstOcc [DecidableEq α] (p : List α) : List α → List α
  | [] => []
  | b :: rest =>
      if leadsWith p (b :: rest) then (b :: rest).drop p.length
      else b :: removeFirstOcc p rest

/-- Node `path.basename` for the forward-slash file paths produced by the walk
(which never end in a slash): the characters after the last `/`. -/
def basename (p : String) : String :=
  String.mk ((p.data.reverse.takeWhile fun c => c ≠ '/').reverse)

/-! ### Calendar-day date model

JS `Date` values are modelled at day granularity: a `(year, 0-based month,
day-of-month)` triple, time-of-day taken as midnight.  `new Date(y, m, d)` with
`d` past the end of the month rolls over exactly as the day-ordinal arithmetic
below does. -/

structure SDate where
  year : Int
  month : Nat
  day : Nat
  deriving Repr, DecidableEq

def isLeapYear (y : Int) : Bool := (y % 4 == 0 && y % 100 != 0) || y % 400 == 0

def monthLengths (y : Int) : List Nat :=
  [31, if isLeapYear y then 29 else 28, 31, 30, 31, 30, 31, 31, 30, 31, 30, 31]

/-- Days in year `y` before 0-based month `m`. -/
def daysBeforeMonth (y : Int) (m : Nat) : Nat := ((monthLengths y).take m).sum

/-- Day ordinal of `new Date(y, m, d)` within year `y` (relative to Jan 0). -/
def yearOffset (y : Int) (m d : Nat) : Int := (daysBeforeMonth y m : Int) + d

/-- Models `Math.abs((today - new Date(today.year, pm, pd)) / 86400000)` for the
nearby-days window: both dates projected into `today`'s year. -/
def nearbyDiffDays (today : SDate) (pm pd : Nat) : Nat :=
  (yearOffset today.year today.month today.day - yearOffset today.year pm pd).natAbs

/-! ### Data model (`src/lib/types.ts`) -/

/-- A photo record.  Fields not consulted by any verified claim (width, height,
camera, lens, thumbnail, tags) are omitted from the embedding. -/
structure Photo where
  id : String
  path : String
  filename : String
  takenAt : Option SDate := none
  latitude : Option ℚ := none
  longitude : Option ℚ := none
  locationName : Option String := none
  people : Option (List String) := none
  album : Option String := none
  deriving Repr, DecidableEq

structure Person where
  id : String
  name : String
  photoCount : Nat
  coverPhoto : Option String := none
  deriving Repr, DecidableEq

structure Location where
  name : String
  latitude : ℚ
  longitude : ℚ
  photoCount : Nat
  photos : List String
  deriving Repr, DecidableEq

/-- A serialized photo in the persisted snapshot, with its last-seen mtime.
(The ISO round trip of `takenAt` is treated as the identity.) -/
structure CachedPhoto where
  photo : Photo
  mtime : Nat
  deriving Repr, DecidableEq

/-- The persisted cache snapshot (`ScanCache`). -/
structure ScanCache where
  version : Nat
  photosRoot : String
  photos : List (String × CachedPhoto)
  deriving Repr, DecidableEq

/-- The mutable fields of `PhotoScanner` that the claims are about.  (`albums`
and `indexed` are not consulted by any claim and are omitted.) -/
structure ScanState where
  photos : List (String × Photo)
  people : List (String × Person)
  locations : List (String × Location)
  cachedMtimes : List (String × Nat)
  deriving Repr, DecidableEq

def emptyState : ScanState := ⟨[], [], [], []⟩

/-! ### Scanner operations (`src/lib/scanner.ts`) -/

def CACHE_VERSION : Nat := 1

/-- Models `generateId`: base64url of the path with the first occurrence of the root
removed. -/
def generateId (root filePath : String) : String :=
  let relative := removeFirstOcc root.data filePath.data
  String.mk (b64urlEncode (relative.flatMap utf8Bytes))

/-- Models `addPersonPhoto`. -/
def addPersonPhoto (personName : String) (photo : Photo) (people : List (String × Person)) :
    List (String × Person) :=
  match mget personName people with
  | some existing => mset personName { existing with photoCount := existing.photoCount + 1 } people
  | none =>
      mset personName
        { id := String.mk (b64urlEncode (personName.data.flatMap utf8Bytes))
          name := personName
          photoCount := 1
          coverPhoto := some photo.id } people

/-- Models `addLocationPhoto`.  The call sites guarantee `latitude`/`longitude` are
present (the source uses non-null assertions); `getD 0` stands in for `!`. -/
def addLocationPhoto (locationName : String) (photo : Photo)
    (locations : List (String × Location)) : List (String × Location) :=
  match mget locationName locations with
  | some existing =>
      mset locationName
        { existing with
          photoCount := existing.photoCount + 1
          photos := existing.photos ++ [photo.id] } locations
  | none =>
      mset locationName
        { name := locationName
          latitude := photo.latitude.getD 0
          longitude := photo.longitude.getD 0
          photoCount := 1
          photos := [photo.id] } locations

/-- The `if (photo.people) for (...) this.addPersonPhoto(...)` block shared by
`processPhoto` and `loadCache`. -/
def indexPeople (photo : Photo) (people : List (String × Person)) : List (String × Person) :=
  match photo.people with
  | none => people
  | some names => names.foldl (fun m n => addPersonPhoto n photo m) people

/-- The `if (photo.locationName && photo.latitude && photo.longitude)` block
shared by `processPhoto` and `loadCache`. -/
def indexLocation (photo : Photo) (locations : List (String × Location)) :
    List (String × Location) :=
  if truthyStr photo.locationName && truthyNum photo.latitude && truthyNum photo.longitude then
    addLocationPhoto (photo.locationName.getD "") photo locations
  else locations

/-- What the two extractors (`extractExifData` + `extractSynologyMetadata`)
produce for a file; their filesystem reads make them inputs of the model. -/
structure Extracted where
  takenAt : Option SDate := none
  latitude : Option ℚ := none
  longitude : Option ℚ := none
  locationName : Option String := none
  people : Option (List String) := none
  deriving Repr, DecidableEq

/-- The fresh `Photo` assembled on the `processPhoto` miss path. -/
def buildPhoto (root filePath : String) (albumName : Option String) (ext : Extracted) : Photo :=
  { id := generateId root filePath
    path := filePath
    filename := basename filePath
    album := albumName
    takenAt := ext.takenAt
    latitude := ext.latitude
    longitude := ext.longitude
    locationName := ext.locationName
    people := ext.people }

/-- The `processPhoto` skip test:
`cachedMtime && cachedMtime === currentMtime && this.photos.has(id)`.
Note the JS truthiness of `cachedMtime`: a stored mtime of 0 never hits. -/
def cacheHitCond (s : ScanState) (id filePath : String) (currentMtime : Nat) : Bool :=
  match mget filePath s.cachedMtimes with
  | none => false
  | some m => m ≠ 0 && m == currentMtime && (mget id s.photos).isSome

/-- Models `processPhoto` (the stat succeeds with `currentMtime`; the outer catch path
for a failed stat is filesystem error handling outside the claims). -/
def processPhoto (root filePath : String) (albumName : Option String)
    (currentMtime : Nat) (ext : Extracted) (s : ScanState) : ScanState :=
  let id := generateId root filePath
  if cacheHitCond s id filePath currentMtime then
    { s with cachedMtimes := mset filePath currentMtime s.cachedMtimes }
  else
    let photo := buildPhoto root filePath albumName ext
    { s with
      people := indexPeople photo s.people
      locations := indexLocation photo s.locations
      photos := mset id photo s.photos
      cachedMtimes := mset filePath currentMtime s.cachedMtimes }

/-- One iteration of the `loadCache` restore loop. -/
def loadEntry (s : ScanState) (entry : String × CachedPhoto) : ScanState :=
  let photo := entry.2.photo
  { s with
    cachedMtimes := mset photo.path entry.2.mtime s.cachedMtimes
    photos := mset entry.1 photo s.photos
    people := indexPeople photo s.people
    locations := indexLocation photo s.locations }

/-- Models `loadCache`: `none` stands for a missing or unreadable snapshot (the catch
path), which leaves the state untouched. -/
def loadCache (root : String) (snapshot : Option ScanCache) (s : ScanState) : ScanState :=
  match snapshot with
  | none => s
  | some cache =>
      if cache.version ≠ CACHE_VERSION || cache.photosRoot ≠ root then s
      else cache.photos.foldl loadEntry s

/-- Models `saveCache`: the snapshot written after a scan
(`this.cachedMtimes.get(photo.path) || 0`). -/
def saveCache (root : String) (s : ScanState) : ScanCache :=
  { version := CACHE_VERSION
    photosRoot := root
    photos := s.photos.map fun p => (p.1, ⟨p.2, (mget p.2.path s.cachedMtimes).getD 0⟩) }

/-- A photo file encountered by `scanDirectory`'s walk: its path, the album
name derived from its directory, its stat mtime, and what the extractors would
produce for it. -/
structure FsFile where
  path : String
  album : Option String := none
  mtime : Nat
  ext : Extracted
  deriving Repr, DecidableEq

def scanFiles (root : String) (files : List FsFile) (s : ScanState) : ScanState :=
  files.foldl (fun st f => processPhoto root f.path f.album f.mtime f.ext st) s

structure ScanResult where
  state : ScanState
  saved : ScanCache
  deriving Repr, DecidableEq

/-- Models `scan()`: load the cache, walk the corpus, save the new snapshot.  `files`
is the list of photo files the walk encounters (in walk order); `snapshot` is
the cache file on disk. -/
def scan (root : String) (snapshot : Option ScanCache) (files : List FsFile)
    (s : ScanState) : ScanResult :=
  let s1 := loadCache root snapshot s
  let s2 := scanFiles root files s1
  { state := s2, saved := saveCache root s2 }

/-! ### Index queries -/

def getAllPhotos (s : ScanState) : List Photo := s.photos.map Prod.snd

def getAllPeople (s : ScanState) : List Person :=
  stableSort (fun a b => b.photoCount ≤ a.photoCount) (s.people.map Prod.snd)

def getAllLocations (s : ScanState) : List Location :=
  stableSort (fun a b => b.photoCount ≤ a.photoCount) (s.locations.map Prod.snd)

def getLocationPhotos (s : ScanState) (locationName : String) : List Photo :=
  (getAllPhotos s).filter fun p => p.locationName == some locationName

/-- Models `getPhotosWithPeople`: `if (!p.people) return false; return
people.every(...)`. -/
def getPhotosWithPeople (s : ScanState) (people : List String) : List Photo :=
  (getAllPhotos s).filter fun p =>
    match p.people with
    | none => false
    | some ps => people.all fun person => ps.contains person

/-! ### Story model (`src/lib/stories.ts`) -/

inductive StoryType where
  | years_ago | people_together | location | album | season | random
  deriving Repr, DecidableEq

structure StoryMetadata where
  yearsAgo : Option Int := none
  people : Option (List String) := none
  location : Option String := none
  dateRange : Option (SDate × SDate) := none
  deriving Repr, DecidableEq

structure Story where
  id : String
  type : StoryType
  title : String
  subtitle : Option String := none
  description : Option String := none
  photos : List Photo
  createdAt : Nat
  metadata : Option StoryMetadata := none
  deriving Repr, DecidableEq

/-- The generator's environment: the clock (`new Date()` / `Date.now()`) and
the random source.  `Math.floor(Math.random() * n)` for the k-th call is
modelled as `g k % n`; every JS outcome sequence is some `g` and conversely. -/
structure Env where
  today : SDate
  nowMs : Nat
  g : Nat → Nat

/-- Models `Math.floor(Math.random() * n)` (`n = 0` gives index 0, as in JS). -/
def jsRandIdx (g : Nat → Nat) (k n : Nat) : Nat := g k % max n 1

/-- Swap two array cells (always called in bounds). -/
def aswap (a : Array α) (i j : Nat) : Array α :=
  match a[i]?, a[j]? with
  | some x, some y => (a.set! i y).set! j x
  | _, _ => a

/-- The Fisher–Yates loop of `shuffleArray`: `for (i = len-1; i > 0; i--)`. -/
def fyLoop (g : Nat → Nat) : Array α → Nat → Nat → Array α × Nat
  | a, 0, k => (a, k)
  | a, i + 1, k =>
      let j := jsRandIdx g k (i + 2)
      fyLoop g (aswap a (i + 1) j) i (k + 1)

def shuffleArray (g : Nat → Nat) (k : Nat) (l : List α) : List α × Nat :=
  let r := fyLoop g l.toArray (l.length - 1) k
  (r.1.toList, r.2)

def shuffleAndLimit (g : Nat → Nat) (k : Nat) (l : List α) (limit : Nat) : List α × Nat :=
  let r := shuffleArray g k l
  (r.1.take limit, r.2)

/-- Append `p` to the group of `y`, JS-`Map` insertion order. -/
def groupInsert (y : Int) (p : Photo) : List (Int × List Photo) → List (Int × List Photo)
  | [] => [(y, [p])]
  | (y₀, ps) :: rest =>
      if y₀ = y then (y₀, ps ++ [p]) :: rest else (y₀, ps) :: groupInsert y p rest

def igets (y : Int) : List (Int × List Photo) → List Photo
  | [] => []
  | (y₀, ps) :: rest => if y₀ = y then ps else igets y rest

/-- JS `photos.map(p => p.locationName).filter(Boolean)` deduplicated. -/
def storyLocations (photos : List Photo) : List String :=
  uniqFirst ((photos.filterMap Photo.locationName).filter (· ≠ ""))

/-- JS `photos.flatMap(p => p.people || [])` deduplicated. -/
def storyPeople (photos : List Photo) : List String :=
  uniqFirst (photos.flatMap fun p => p.people.getD [])

/-- JS `[...new Set(photos.map(p => p.takenAt?.getFullYear()).filter(Boolean))].sort()`
(the default lexicographic sort agrees with numeric order on equal-length
decimal years). -/
def storyYears (photos : List Photo) : List Int :=
  stableSort (fun a b => decide (a ≤ b))
    (uniqFirst ((photos.filterMap fun p => p.takenAt.map SDate.year).filter (· ≠ 0)))

/-- The nearby-days window test: `diffDays <= 7 && photoYear < todayYear`. -/
def nearbyPred (today : SDate) (p : Photo) : Bool :=
  match p.takenAt with
  | none => false
  | some d => decide (nearbyDiffDays today d.month d.day ≤ 7) && decide (d.year < today.year)

/-- The exact-day test of `generateYearsAgoStory`'s collection loop. -/
def onThisDayPred (today : SDate) (p : Photo) : Bool :=
  match p.takenAt with
  | none => false
  | some d => d.month == today.month && d.day == today.day

/-- Models `generateNearbyDaysStory`. -/
def generateNearbyDaysStory (s : ScanState) (e : Env) (today : SDate) (k : Nat) :
    Option Story × Nat :=
  let nearbyPhotos := (getAllPhotos s).filter (nearbyPred today)
  if nearbyPhotos.isEmpty then (none, k)
  else
    let r := shuffleAndLimit e.g k nearbyPhotos 20
    (some { id := "nearby-days-" ++ toString e.nowMs
            type := StoryType.years_ago
            title := "这周的回忆"
            subtitle := some "往年这个时候..."
            photos := r.1
            createdAt := e.nowMs }, r.2)

/-- Models `generateYearsAgoStory`. -/
def generateYearsAgoStory (s : ScanState) (e : Env) (targetDate : Option SDate) (k : Nat) :
    Option Story × Nat :=
  let today := targetDate.getD e.today
  let allPhotos := getAllPhotos s
  let photosOnThisDay := allPhotos.foldl (fun m p =>
    if onThisDayPred today p then groupInsert (((p.takenAt).map SDate.year).getD 0) p m
    else m) []
  if photosOnThisDay.isEmpty then generateNearbyDaysStory s e today k
  else
    let years := stableSort (fun a b => decide (a ≤ b)) (photosOnThisDay.map Prod.fst)
    let idx := jsRandIdx e.g k years.length
    let k := k + 1
    match years[idx]? with
    | none => (none, k)
    | some randomYear =>
        let yearsAgo := today.year - randomYear
        let photos := igets randomYear photosOnThisDay
        if yearsAgo ≤ 0 then (none, k)
        else
          let locations := storyLocations photos
          let people := storyPeople photos
          let sub1 :=
            if locations.length > 0 then "在" ++ String.intercalate "、" (locations.take 2)
            else ""
          let sub2 :=
            if people.length > 0 then
              let names := String.intercalate "、" (people.take 3)
              if sub1 ≠ "" then sub1 ++ "，与" ++ names else "与" ++ names
            else sub1
          let r := shuffleAndLimit e.g k photos 20
          (some { id := "years-ago-" ++ toString randomYear ++ "-" ++ toString today.month
                    ++ "-" ++ toString today.day
                  type := StoryType.years_ago
                  title := toString yearsAgo ++ "年前的今天"
                  subtitle := if sub2 = "" then none else some sub2
                  description := some (toString randomYear ++ "年" ++ toString (today.month + 1)
                    ++ "月" ++ toString today.day ++ "日的回忆")
                  photos := r.1
                  createdAt := e.nowMs
                  metadata := some
                    { yearsAgo := some yearsAgo
                      people := if people.length > 0 then some people else none
                      location := if locations.length > 0 then locations.head? else none } },
           r.2)

/-- Models `createPeopleStory`. -/
def createPeopleStory (e : Env) (names : List String) (photos : List Photo) (k : Nat) :
    Story × Nat :=
  let locations := storyLocations photos
  let years := storyYears photos
  let d1 :=
    if years.length > 1 then
      "从" ++ toString (years.headD 0) ++ "年到" ++ toString (years.getLastD 0) ++ "年的共同时光"
    else if years.length = 1 then toString (years.headD 0) ++ "年的共同回忆"
    else ""
  let d2 :=
    if locations.length > 0 then
      let locs := String.intercalate "、" (locations.take 3)
      if d1 ≠ "" then d1 ++ "，足迹遍布" ++ locs else "在" ++ locs ++ "的故事"
    else d1
  let r := shuffleAndLimit e.g k photos 30
  ({ id := "people-" ++ String.intercalate "-" names ++ "-" ++ toString e.nowMs
     type := StoryType.people_together
     title := String.intercalate " & " names ++ " 的故事"
     subtitle := some (toString photos.length ++ "张共同的照片")
     description := some d2
     photos := r.1
     createdAt := e.nowMs
     metadata := some { people := some names } }, r.2)

/-- Models `generatePeopleTogetherStory`. -/
def generatePeopleTogetherStory (s : ScanState) (e : Env) (k : Nat) : Option Story × Nat :=
  let people := getAllPeople s
  if people.length < 2 then (none, k)
  else
    let sh := shuffleArray e.g k people
    let k := sh.2
    let selected := sh.1.take (min 3 sh.1.length)
    let names := selected.map Person.name
    let photos := getPhotosWithPeople s names
    if photos.isEmpty then
      if names.length > 2 then
        let twoNames := names.take 2
        let twoPhotos := getPhotosWithPeople s twoNames
        if twoPhotos.isEmpty then (none, k)
        else
          let r := createPeopleStory e twoNames twoPhotos k
          (some r.1, r.2)
      else (none, k)
    else
      let r := createPeopleStory e names photos k
      (some r.1, r.2)

/-- Models `generateLocationStory`.  Accessing `selectedLocation.name` on an
`undefined` draw (only possible if a `Location` entry had `photoCount = 0`)
throws, modelled as `Except.error`. -/
def generateLocationStory (s : ScanState) (e : Env) (k : Nat) :
    Except String (Option Story × Nat) :=
  let locations := getAllLocations s
  if locations.isEmpty then Except.ok (none, k)
  else
    let weighted := locations.flatMap fun loc => List.replicate (min loc.photoCount 10) loc
    let idx := jsRandIdx e.g k weighted.length
    let k := k + 1
    match weighted[idx]? with
    | none => Except.error "TypeError: selectedLocation is undefined"
    | some selectedLocation =>
        let photos := getLocationPhotos s selectedLocation.name
        if photos.isEmpty then Except.ok (none, k)
        else
          let people := storyPeople photos
          let years := storyYears photos
          let d1 :=
            if years.length > 1 then
              toString (years.headD 0) ++ "年至" ++ toString (years.getLastD 0) ++ "年的回忆"
            else if years.length = 1 then toString (years.headD 0) ++ "年的故事"
            else ""
          let d2 :=
            if people.length > 0 then
              let names := String.intercalate "、" (people.take 4)
              if d1 ≠ "" then d1 ++ "，与" ++ names ++ "一起" else "与" ++ names ++ "的时光"
            else d1
          let r := shuffleAndLimit e.g k photos 30
          Except.ok
            (some { id := "location-" ++ selectedLocation.name ++ "-" ++ toString e.nowMs
                    type := StoryType.location
                    title := selectedLocation.name ++ "的故事"
                    subtitle := some (toString photos.length ++ "张照片的回忆")
                    description := some d2
                    photos := r.1
                    createdAt := e.nowMs
                    metadata := some
                      { location := some selectedLocation.name
                        people := if people.length > 0 then some people else none } },
             r.2)

/-- The season story object literal. -/
def mkSeasonStory (e : Env) (season : String) (seasonMonths : List Nat) (randomYear : Int)
    (locations : List String) (chosen : List Photo) : Story :=
  { id := "season-" ++ season ++ "-" ++ toString randomYear
    type := StoryType.season
    title := toString randomYear ++ "年的" ++ season
    subtitle :=
      if locations.length > 0 then some ("在" ++ String.intercalate "、" (locations.take 2))
      else none
    photos := chosen
    createdAt := e.nowMs
    metadata := some
      { dateRange := some
          (⟨randomYear, seasonMonths.headD 0, 1⟩,
           ⟨randomYear, (seasonMonths[2]?).getD 0, 28⟩) } }

/-- Models `generateSeasonStory`. -/
def generateSeasonStory (s : ScanState) (e : Env) (k : Nat) : Option Story × Nat :=
  let today := e.today
  let month := today.month
  let sm :=
    if 2 ≤ month ∧ month ≤ 4 then ("春天", [2, 3, 4])
    else if 5 ≤ month ∧ month ≤ 7 then ("夏天", [5, 6, 7])
    else if 8 ≤ month ∧ month ≤ 10 then ("秋天", [8, 9, 10])
    else ("冬天", [11, 0, 1])
  let season := sm.1
  let seasonMonths : List Nat := sm.2
  let seasonPhotos := (getAllPhotos s).filter fun p =>
    match p.takenAt with
    | none => false
    | some d => seasonMonths.contains d.month && decide (d.year < today.year)
  if seasonPhotos.isEmpty then (none, k)
  else
    let byYear := seasonPhotos.foldl
      (fun m p => groupInsert ((p.takenAt.map SDate.year).getD 0) p m) []
    let years := byYear.map Prod.fst
    let idx := jsRandIdx e.g k years.length
    let k := k + 1
    match years[idx]? with
    | none => (none, k)
    | some randomYear =>
        let photos := igets randomYear byYear
        let locations := storyLocations photos
        let r := shuffleAndLimit e.g k photos 25
        (some (mkSeasonStory e season seasonMonths randomYear locations r.1), r.2)

/-- Models `generateRandomPhotosStory` (always returns a story, of type `random`). -/
def generateRandomPhotosStory (s : ScanState) (e : Env) (k : Nat) : Story × Nat :=
  let allPhotos := getAllPhotos s
  let r := shuffleAndLimit e.g k allPhotos 20
  ({ id := "random-" ++ toString e.nowMs
     type := StoryType.random
     title := "随机回忆"
     subtitle := some (toString allPhotos.length ++ "张照片中的精选")
     photos := r.1
     createdAt := e.nowMs }, r.2)

/-- Models `generateRandomStory`: draw one of the four named story kinds
(`storyTypes[Math.floor(Math.random() * 4)]`); the switch's `default` arm
(`generateRandomPhotosStory`) is kept in the model even though the draw is
always in range. -/
def generateRandomStory (s : ScanState) (e : Env) (k : Nat) :
    Except String (Option Story × Nat) :=
  let idx := jsRandIdx e.g k 4
  let k := k + 1
  if idx = 0 then Except.ok (generateYearsAgoStory s e none k)
  else if idx = 1 then Except.ok (generatePeopleTogetherStory s e k)
  else if idx = 2 then generateLocationStory s e k
  else if idx = 3 then Except.ok (generateSeasonStory s e k)
  else
    let r := generateRandomPhotosStory s e k
    Except.ok (some r.1, r.2)

/-- The four closures shuffled in `generateMultipleStories`' middle phase. -/
inductive GKind where
  | peopleTogether | locationStory | seasonStory | randomPhotos
  deriving Repr, DecidableEq

def runKind (s : ScanState) (e : Env) (kind : GKind) (k : Nat) :
    Except String (Option Story × Nat) :=
  match kind with
  | GKind.peopleTogether => Except.ok (generatePeopleTogetherStory s e k)
  | GKind.locationStory => generateLocationStory s e k
  | GKind.seasonStory => Except.ok (generateSeasonStory s e k)
  | GKind.randomPhotos =>
      let r := generateRandomPhotosStory s e k
      Except.ok (some r.1, r.2)

/-- The middle phase: iterate the shuffled kinds, keeping at most one story per
distinct type, breaking once `count` is reached. -/
def runKinds (s : ScanState) (e : Env) (count : Nat) :
    List GKind → List Story → List StoryType → Nat → Except String (List Story × Nat)
  | [], stories, _, k => Except.ok (stories, k)
  | kind :: rest, stories, seen, k =>
      if count ≤ stories.length then Except.ok (stories, k)
      else
        match runKind s e kind k with
        | Except.error msg => Except.error msg
        | Except.ok (none, k') => runKinds s e count rest stories seen k'
        | Except.ok (some st, k') =>
            if seen.contains st.type then runKinds s e count rest stories seen k'
            else runKinds s e count rest (stories ++ [st]) (seen ++ [st.type]) k'

/-- The final phase: `while (stories.length < count)` draw fully random-typed
stories, breaking on the first `null`.  `need = count - stories.length`. -/
def fillLoop (s : ScanState) (e : Env) :
    Nat → List Story → Nat → Except String (List Story × Nat)
  | 0, stories, k => Except.ok (stories, k)
  | n + 1, stories, k =>
      match generateRandomStory s e k with
      | Except.error msg => Except.error msg
      | Except.ok (none, k') => Except.ok (stories, k')
      | Except.ok (some st, k') => fillLoop s e n (stories ++ [st]) k'

/-- Models `generateMultipleStories(count)`. -/
def generateMultipleStories (s : ScanState) (e : Env) (count : Nat) (k : Nat) :
    Except String (List Story × Nat) :=
  let r0 := generateYearsAgoStory s e none k
  let k := r0.2
  let stories := match r0.1 with | some st => [st] | none => []
  let seen : List StoryType := match r0.1 with | some _ => [StoryType.years_ago] | none => []
  let sh := shuffleArray e.g k
    [GKind.peopleTogether, GKind.locationStory, GKind.seasonStory, GKind.randomPhotos]
  match runKinds s e count sh.1 stories seen sh.2 with
  | Except.error msg => Except.error msg
  | Except.ok (stories, k) => fillLoop s e (count - stories.length) stories k

/-! ### Concrete corpora used by the claim theorems -/

/-- Extraction result for a one-photo corpus: person "A", taken 2020-06-01. -/
def demoExt : Extracted := { takenAt := some ⟨2020, 5, 1⟩, people := some ["A"] }

def demoFile : FsFile := { path := "a", mtime := 5, ext := demoExt }

/-- First scan: cold start, no snapshot on disk. -/
def scan1 : ScanResult := scan "" none [demoFile] emptyState

/-- Second scan on the same scanner instance (the `/api/rescan` path) with
zero filesystem changes: the snapshot written by the first scan is on disk and
the in-memory state is carried over. -/
def scan2 : ScanResult := scan "" (some scan1.saved) [demoFile] scan1.state

/-- A later scan in a fresh process whose walk no longer finds the file. -/
def scanAfterDelete : ScanResult := scan "" (some scan1.saved) [] emptyState

/-- A fresh-process scan with a valid snapshot whose file was touched
(`mtime` 5 recorded, 6 on disk) but whose extracted content is unchanged. -/
def scanTouched : ScanResult :=
  scan "" (some scan1.saved) [{ demoFile with mtime := 6 }] emptyState

/-- How many photos of the index carry person `name`. -/
def photosWithPersonCount (s : ScanState) (name : String) : Nat :=
  ((getAllPhotos s).filter fun p => (p.people.getD []).contains name).length

/-- The recorded count of person `name`, if indexed. -/
def personCount (s : ScanState) (name : String) : Option Nat :=
  (mget name s.people).map Person.photoCount

/-- C1: the claim is the code's intent but the code violates it.  `scan()` on
the same `PhotoScanner` does not clear the index: `loadCache` re-increments the
person index on top of the live state, so an unchanged corpus yields count 1
after the first scan and count 2 after the second, while the photo id set is
unchanged.  (Claim C1 said the counts are identical.) -/
theorem scan_rerun_doubles_person_count :
    personCount scan1.state "A" = some 1 ∧
    personCount scan2.state "A" = some 2 ∧
    scan2.state.photos.map Prod.fst = scan1.state.photos.map Prod.fst := by decide

/-- C2: the claim is the documented invariant but the code violates it.  After
a fresh-process scan in which the cached file's mtime changed (content
unchanged), person "A" is counted twice — once by the `loadCache` rebuild, once
by the `processPhoto` miss path — while only one indexed photo contains "A". -/
theorem person_count_invariant_violation :
    personCount scanTouched.state "A" = some 2 ∧
    photosWithPersonCount scanTouched.state "A" = 1 := by decide

/-- C5: the claim is the spec's stated rebuild semantics but the code violates
it.  `scan()` never empties the index: a file present in an earlier scan and
missing from the filesystem is restored from the snapshot by `loadCache` and is
still indexed (and re-persisted) after the later scan completes. -/
theorem deleted_file_survives_rescan :
    (mget (generateId "" "a") scanAfterDelete.state.photos).isSome = true ∧
    (mget (generateId "" "a") scanAfterDelete.saved.photos).isSome = true := by decide

/-- A photo with no people list at all (no face annotations were found). -/
def plainPhoto : Photo := { id := "p1", path := "p1", filename := "p1" }

def plainState : ScanState := { photos := [("p1", plainPhoto)], people := [], locations := [], cachedMtimes := [] }

/-- C3 counterexample: `getPhotosWithPeople([])` is NOT the whole corpus — the
`if (!p.people) return false` guard drops every photo without a people list, so
on a corpus of one annotation-free photo it returns nothing. -/
theorem getPhotosWithPeople_empty_misses_corpus :
    getPhotosWithPeople plainState [] = [] ∧ getAllPhotos plainState = [plainPhoto] := by decide

/-- C3 amended: `getPhotosWithPeople([A,B])` returns exactly the photos whose
person set contains both `A` and `B`; `getPhotosWithPeople([])` returns exactly
the photos that HAVE a people list (photos without one are excluded). -/
theorem getPhotosWithPeople_characterization (s : ScanState) (A B : String) (p : Photo) :
    (p ∈ getPhotosWithPeople s [A, B] ↔
      p ∈ getAllPhotos s ∧ ∃ ps, p.people = some ps ∧ A ∈ ps ∧ B ∈ ps) ∧
    (p ∈ getPhotosWithPeople s [] ↔ p ∈ getAllPhotos s ∧ p.people.isSome = true) := by
  constructor
  · simp only [getPhotosWithPeople, List.mem_filter]
    constructor
    · rintro ⟨hmem, hf⟩
      refine ⟨hmem, ?_⟩
      cases hp : p.people with
      | none => simp [hp] at hf
      | some ps =>
          refine ⟨ps, rfl, ?_, ?_⟩ <;>
            · simp [hp, List.all_cons, List.elem_iff] at hf
              tauto
    · rintro ⟨hmem, ps, hp, hA, hB⟩
      exact ⟨hmem, by simp [hp, List.all_cons, List.elem_iff, hA, hB]⟩
  · simp only [getPhotosWithPeople, List.mem_filter]
    constructor
    · rintro ⟨hmem, hf⟩
      refine ⟨hmem, ?_⟩
      cases hp : p.people with
      | none => simp [hp] at hf
      | some ps => simp [hp]
    · rintro ⟨hmem, hsome⟩
      cases hp : p.people with
      | none => simp [hp] at hsome
      | some ps => exact ⟨hmem, by simp [hp]⟩

/-- A corpus with one photo taken on today's month/day four years ago, and no
people or location annotations. -/
def c4Photo : Photo := { id := "c4", path := "c4", filename := "c4", takenAt := some ⟨2020, 5, 1⟩ }

def c4State : ScanState := { photos := [("c4", c4Photo)], people := [], locations := [], cachedMtimes := [] }

/-- Today is 2024-06-01 and every random draw is 0. -/
def c4Env : Env := { today := ⟨2024, 5, 1⟩, nowMs := 0, g := fun _ => 0 }

/-- The story types of a successful batch. -/
def batchTypes (r : Except String (List Story × Nat)) : Option (List StoryType) :=
  r.toOption.map fun t => t.1.map Story.type

/-- C4 counterexample: on this corpus (people/location generators fail, so the
batch is short after the dedup phase) `generateMultipleStories(5)` falls into
the fill phase, whose `generateRandomStory` draws bypass the per-type dedup and
produce two MORE years-ago stories: three in total, refuting "never more than
one story of the years-ago type". -/
theorem gms_returns_three_years_ago_stories :
    batchTypes (generateMultipleStories c4State c4Env 5 0) =
      some [StoryType.years_ago, StoryType.season, StoryType.random,
            StoryType.years_ago, StoryType.years_ago] := by decide

theorem fillLoop_length_le (s : ScanState) (e : Env) (n : Nat) :
    ∀ stories k rs rk, fillLoop s e n stories k = Except.ok (rs, rk) →
      rs.length ≤ stories.length + n := by
  induction n with
  | zero =>
    intro stories k rs rk h
    simp [fillLoop] at h
    simp [← h.1]
  | succ n ih =>
    intro stories k rs rk h
    simp only [fillLoop] at h
    cases hg : generateRandomStory s e k with
    | error msg => rw [hg] at h; exact absurd h (by simp)
    | ok p =>
      rw [hg] at h
      obtain ⟨st?, k'⟩ := p
      cases st? with
      | none =>
        simp at h
        simp [← h.1]
      | some st =>
        simp at h
        have := ih (stories ++ [st]) k' rs rk h
        simp at this
        omega

theorem runKinds_length_le (s : ScanState) (e : Env) (count : Nat) (kinds : List GKind) :
    ∀ stories seen k rs rk, runKinds s e count kinds stories seen k = Except.ok (rs, rk) →
      rs.length ≤ max stories.length count := by
  induction kinds with
  | nil =>
    intro stories seen k rs rk h
    simp [runKinds] at h
    simp [← h.1]
  | cons kind rest ih =>
    intro stories seen k rs rk h
    simp only [runKinds] at h
    by_cases hc : count ≤ stories.length
    · simp [hc] at h
      simp [← h.1]
    · simp [hc] at h
      cases hg : runKind s e kind k with
      | error msg => rw [hg] at h; exact absurd h (by simp)
      | ok p =>
        rw [hg] at h
        obtain ⟨st?, k'⟩ := p
        cases st? with
        | none => exact ih stories seen k' rs rk h
        | some st =>
          simp at h
          by_cases hseen : st.type ∈ seen
          · rw [if_pos hseen] at h
            exact ih stories seen k' rs rk h
          · rw [if_neg hseen] at h
            have := ih (stories ++ [st]) (seen ++ [st.type]) k' rs rk h
            simp at this
            omega

theorem gms_tail_le (s : ScanState) (e : Env) (count : Nat) (kinds : List GKind)
    (stories0 : List Story) (seen0 : List StoryType) (k0 : Nat)
    (h0 : stories0.length ≤ count) (rs : List Story) (rk : Nat)
    (h : (match runKinds s e count kinds stories0 seen0 k0 with
          | Except.error msg => Except.error msg
          | Except.ok (stories, k) => fillLoop s e (count - stories.length) stories k) =
        Except.ok (rs, rk)) :
    rs.length ≤ count := by
  cases hrk : runKinds s e count kinds stories0 seen0 k0 with
  | error msg => rw [hrk] at h; exact absurd h (by simp)
  | ok q =>
    rw [hrk] at h
    obtain ⟨stories1, k1⟩ := q
    have h1 : stories1.length ≤ max stories0.length count :=
      runKinds_length_le s e count kinds stories0 seen0 k0 stories1 k1 hrk
    have h1' : stories1.length ≤ count := by
      rw [Nat.max_def] at h1
      split at h1 <;> omega
    have h2 := fillLoop_length_le s e (count - stories1.length) stories1 k1 rs rk h
    omega

/-- C4 amended: for any corpus state, clock and random source, a successful
`generateMultipleStories(count)` with `count ≥ 1` never returns more stories
than requested.  (The years-ago-uniqueness half of the original claim fails:
the fill phase can draw further years-ago stories.) -/
theorem gms_never_exceeds_count (s : ScanState) (e : Env) (count k : Nat)
    (hcount : 1 ≤ count) (r : List Story × Nat)
    (h : generateMultipleStories s e count k = Except.ok r) :
    r.1.length ≤ count := by
  obtain ⟨rs, rk⟩ := r
  simp only [generateMultipleStories] at h
  cases hr0 : (generateYearsAgoStory s e none k).1 with
  | none =>
    rw [hr0] at h
    exact gms_tail_le s e count _ [] [] _ (by simp) rs rk h
  | some st =>
    rw [hr0] at h
    exact gms_tail_le s e count _ [st] [StoryType.years_ago] _ (by simpa using hcount) rs rk h

/-- Witness for `gms_never_exceeds_count` at the concrete batch computed above. -/
theorem gms_never_exceeds_count_witness :
    (match generateMultipleStories c4State c4Env 5 0 with
      | Except.ok r => r.1.length ≤ 5
      | Except.error _ => True) := by
  cases hE : generateMultipleStories c4State c4Env 5 0 with
  | error msg => trivial
  | ok r => exact gms_never_exceeds_count c4State c4Env 5 0 (by decide) r hE

theorem foldl_fixed (f : β → α → β) (l : List α) (m : β)
    (h : ∀ p ∈ l, ∀ acc, f acc p = acc) : l.foldl f m = m := by
  induction l generalizing m with
  | nil => rfl
  | cons hd tl ih =>
    rw [List.foldl_cons, h hd (by simp), ih]
    intro p hp acc
    exact h p (List.mem_cons_of_mem _ hp) acc

/-- C6 confirmed: if no indexed photo shares the target's month and day (in any
year) but some photo of a strictly earlier year lies within 7 days of the
target (projected into the target's calendar year, no wrap across year
boundaries), then `generateYearsAgoStory(D)` returns the nearby-days fallback
story rather than absence. -/
theorem yearsAgo_nearby_fallback (s : ScanState) (e : Env) (today : SDate) (k : Nat)
    (hnone : ∀ p ∈ getAllPhotos s, onThisDayPred today p = false)
    (hnear : ∃ p ∈ getAllPhotos s, nearbyPred today p = true) :
    generateYearsAgoStory s e (some today) k = generateNearbyDaysStory s e today k ∧
    (generateYearsAgoStory s e (some today) k).1.isSome = true := by
  have hmain : generateYearsAgoStory s e (some today) k = generateNearbyDaysStory s e today k := by
    simp only [generateYearsAgoStory, Option.getD_some]
    have hfold : (getAllPhotos s).foldl (fun m p =>
        if onThisDayPred today p then groupInsert (((p.takenAt).map SDate.year).getD 0) p m
        else m) ([] : List (Int × List Photo)) = [] := by
      apply foldl_fixed
      intro p hp acc
      rw [hnone p hp]
      simp
    rw [hfold]
    simp only [List.isEmpty_nil, if_true]
  refine ⟨hmain, ?_⟩
  rw [hmain]
  obtain ⟨p, hp, hpred⟩ := hnear
  have hmem : p ∈ (getAllPhotos s).filter (nearbyPred today) :=
    List.mem_filter.mpr ⟨hp, hpred⟩
  have hne : ((getAllPhotos s).filter (nearbyPred today)).isEmpty = false := by
    cases hfe : (getAllPhotos s).filter (nearbyPred today) with
    | nil => rw [hfe] at hmem; simp at hmem
    | cons a l => simp [hfe]
  simp only [generateNearbyDaysStory, hne, Bool.false_eq_true, if_false]
  simp

/-- A corpus with a single photo taken 2020-06-03: no photo on 06-01 in any
year, but one within 7 days in a prior year. -/
def c6Photo : Photo := { id := "c6", path := "c6", filename := "c6", takenAt := some ⟨2020, 5, 3⟩ }

def c6State : ScanState := { photos := [("c6", c6Photo)], people := [], locations := [], cachedMtimes := [] }

theorem yearsAgo_nearby_fallback_witness :
    generateYearsAgoStory c6State c4Env (some ⟨2024, 5, 1⟩) 0 =
      generateNearbyDaysStory c6State c4Env ⟨2024, 5, 1⟩ 0 ∧
    (generateYearsAgoStory c6State c4Env (some ⟨2024, 5, 1⟩) 0).1.isSome = true :=
  yearsAgo_nearby_fallback c6State c4Env ⟨2024, 5, 1⟩ 0 (by decide) (by decide)

def c7Id : String := generateId "" "z"

def c7Photo : Photo := { id := c7Id, path := "z", filename := "z", people := some ["Old"] }

/-- An index that already holds `c7Photo` under its id, with a recorded mtime
of 0 for its path (exactly what `saveCache` writes when no mtime was
recorded). -/
def c7State : ScanState :=
  { photos := [(c7Id, c7Photo)], people := [], locations := [], cachedMtimes := [("z", 0)] }

/-- The same index with a nonzero recorded mtime. -/
def c7HitState : ScanState :=
  { photos := [(c7Id, c7Photo)], people := [], locations := [], cachedMtimes := [("z", 4)] }

def c7Ext : Extracted := { people := some ["New"] }

/-- C7 counterexample: the cache holds a prior mtime for the exact path (0),
it is numerically identical to the file's current mtime (0), and the index
holds the id — the claim says this is a cache hit keeping the old record — yet
`cachedMtime && ...` treats the stored 0 as falsy, so the photo is re-extracted
and the index entry overwritten. -/
theorem cacheHit_zero_mtime_counterexample :
    mget "z" c7State.cachedMtimes = some 0 ∧
    (mget c7Id c7State.photos).isSome = true ∧
    mget c7Id (processPhoto "" "z" none 0 c7Ext c7State).photos =
      some (buildPhoto "" "z" none c7Ext) ∧
    buildPhoto "" "z" none c7Ext ≠ c7Photo := by decide

/-- C7 amended: re-extraction is skipped (state unchanged except the mtime
refresh) iff the cache holds a prior mtime for the exact path that is NONZERO
and numerically identical to the current one and the index already holds the
id; in every other case the entry is overwritten with the freshly extracted
record. -/
theorem processPhoto_hit_characterization (root filePath : String) (album : Option String)
    (mtime : Nat) (ext : Extracted) (s : ScanState) :
    (cacheHitCond s (generateId root filePath) filePath mtime = true ↔
      ∃ m, mget filePath s.cachedMtimes = some m ∧ m ≠ 0 ∧ m = mtime ∧
        (mget (generateId root filePath) s.photos).isSome = true) ∧
    (cacheHitCond s (generateId root filePath) filePath mtime = true →
      processPhoto root filePath album mtime ext s =
        { s with cachedMtimes := mset filePath mtime s.cachedMtimes }) ∧
    (cacheHitCond s (generateId root filePath) filePath mtime = false →
      mget (generateId root filePath) (processPhoto root filePath album mtime ext s).photos =
        some (buildPhoto root filePath album ext)) := by
  refine ⟨?_, ?_, ?_⟩
  · cases hm : mget filePath s.cachedMtimes with
    | none => simp [cacheHitCond, hm]
    | some m =>
      simp only [cacheHitCond, hm]
      constructor
      · intro h
        simp only [Bool.and_eq_true, ne_eq, decide_eq_true_eq, beq_iff_eq] at h
        exact ⟨m, rfl, h.1.1, h.1.2, h.2⟩
      · rintro ⟨m', hm', h0, hmt, hsome⟩
        injection hm' with hmm
        subst hmm
        subst hmt
        simp [h0, hsome]
  · intro h
    simp [processPhoto, h]
  · intro h
    simp [processPhoto, h, mget_mset_self]

/-- Witness: a concrete hit (stored mtime 4 = current 4, id present) keeps the
state, and a concrete miss (stored mtime 0) overwrites the entry. -/
theorem processPhoto_hit_characterization_witness :
    processPhoto "" "z" none 4 c7Ext c7HitState =
      { c7HitState with cachedMtimes := mset "z" 4 c7HitState.cachedMtimes } ∧
    mget (generateId "" "z") (processPhoto "" "z" none 0 c7Ext c7State).photos =
      some (buildPhoto "" "z" none c7Ext) :=
  ⟨(processPhoto_hit_characterization "" "z" none 4 c7Ext c7HitState).2.1 (by decide),
   (processPhoto_hit_characterization "" "z" none 0 c7Ext c7State).2.2 (by decide)⟩

/-- C8 confirmed: a persisted snapshot whose version or root differs from the
running configuration is treated as "no usable cache": `loadCache` returns
before touching any state, so nothing is merged into the index or mtime map
(and no error is raised — the function still returns a state). -/
theorem loadCache_mismatch_ignored (root : String) (cache : ScanCache) (s : ScanState)
    (h : cache.version ≠ CACHE_VERSION ∨ cache.photosRoot ≠ root) :
    loadCache root (some cache) s = s := by
  simp only [loadCache]
  rcases h with h | h <;> simp [h]

/-- A snapshot with a bumped version and non-trivial content. -/
def badCache : ScanCache :=
  { version := 2, photosRoot := "", photos := [("x", ⟨plainPhoto, 3⟩)] }

theorem loadCache_mismatch_ignored_witness :
    loadCache "" (some badCache) emptyState = emptyState :=
  loadCache_mismatch_ignored "" badCache emptyState (Or.inl (by decide))

/-- The C9 invariant: every entry of the Location index has nonzero
coordinates and a nonempty name. -/
def LocationInvariant (locs : List (String × Location)) : Prop :=
  ∀ x ∈ locs, x.2.latitude ≠ 0 ∧ x.2.longitude ≠ 0 ∧ x.2.name ≠ ""

theorem truthyNum_getD (o : Option ℚ) (h : truthyNum o = true) : o.getD 0 ≠ 0 := by
  cases o with
  | none => simp [truthyNum] at h
  | some q => simpa [truthyNum] using h

theorem truthyStr_getD (o : Option String) (h : truthyStr o = true) : o.getD "" ≠ "" := by
  cases o with
  | none => simp [truthyStr] at h
  | some q => simpa [truthyStr] using h

theorem indexLocation_inv (photo : Photo) (locs : List (String × Location))
    (h : LocationInvariant locs) : LocationInvariant (indexLocation photo locs) := by
  unfold indexLocation
  by_cases hg : (truthyStr photo.locationName && truthyNum photo.latitude
      && truthyNum photo.longitude) = true
  · rw [if_pos hg]
    simp only [Bool.and_eq_true] at hg
    obtain ⟨⟨hname, hlat⟩, hlng⟩ := hg
    unfold addLocationPhoto
    cases hget : mget (photo.locationName.getD "") locs with
    | some existing =>
      intro x hx
      rcases mem_mset _ _ _ _ hx with hx1 | hx2
      · subst hx1
        have hmem := mget_mem _ _ _ hget
        have := h _ hmem
        simpa using this
      · exact h _ hx2
    | none =>
      intro x hx
      rcases mem_mset _ _ _ _ hx with hx1 | hx2
      · subst hx1
        exact ⟨truthyNum_getD _ hlat, truthyNum_getD _ hlng, truthyStr_getD _ hname⟩
      · exact h _ hx2
  · rw [if_neg hg]
    exact h

theorem loadEntries_inv (entries : List (String × CachedPhoto)) :
    ∀ s : ScanState, LocationInvariant s.locations →
      LocationInvariant ((entries.foldl loadEntry s).locations) := by
  induction entries with
  | nil => intro s h; exact h
  | cons e rest ih =>
    intro s h
    rw [List.foldl_cons]
    exact ih _ (indexLocation_inv _ _ h)

/-- C9 confirmed: (1) `processPhoto` preserves the invariant that every
Location entry has nonzero coordinates and a nonempty name; (2) a photo whose
extracted location name is absent/empty or whose latitude or longitude is
absent or 0 (the coordinates are tested for JS truthiness) never touches the
Location index; (3) `loadCache` preserves the same invariant. -/
theorem location_index_integrity (root filePath : String) (album : Option String)
    (mtime : Nat) (ext : Extracted) (snapshot : Option ScanCache) (s : ScanState) :
    (LocationInvariant s.locations →
      LocationInvariant (processPhoto root filePath album mtime ext s).locations) ∧
    ((truthyStr ext.locationName && truthyNum ext.latitude && truthyNum ext.longitude) = false →
      (processPhoto root filePath album mtime ext s).locations = s.locations) ∧
    (LocationInvariant s.locations →
      LocationInvariant (loadCache root snapshot s).locations) := by
  refine ⟨?_, ?_, ?_⟩
  · intro h
    unfold processPhoto
    by_cases hc : cacheHitCond s (generateId root filePath) filePath mtime
    · rw [if_pos hc]
      exact h
    · rw [if_neg hc]
      exact indexLocation_inv _ _ h
  · intro hguard
    unfold processPhoto
    by_cases hc : cacheHitCond s (generateId root filePath) filePath mtime
    · rw [if_pos hc]
    · rw [if_neg hc]
      simp only [indexLocation, buildPhoto]
      rw [if_neg (by simp only [hguard]; exact Bool.false_ne_true)]
  · intro h
    cases snapshot with
    | none => exact h
    | some cache =>
      simp only [loadCache]
      by_cases hv : (cache.version ≠ CACHE_VERSION || cache.photosRoot ≠ root) = true
      · rw [if_pos hv]; exact h
      · rw [if_neg hv]; exact loadEntries_inv _ _ h

/-- An extraction whose latitude is present but 0 (JS-falsy). -/
def zeroLatExt : Extracted :=
  { locationName := some "Null Island", latitude := some 0, longitude := some 3 }

/-- Witness: a falsy (0) latitude leaves the Location index untouched, and the
invariant is preserved on a concrete state and snapshot. -/
theorem location_index_integrity_witness :
    (processPhoto "" "v" none 1 zeroLatExt emptyState).locations = emptyState.locations ∧
    LocationInvariant (processPhoto "" "v" none 1 demoExt emptyState).locations ∧
    LocationInvariant (loadCache "" (some scan1.saved) emptyState).locations :=
  ⟨(location_index_integrity "" "v" none 1 zeroLatExt none emptyState).2.1 (by decide),
   (location_index_integrity "" "v" none 1 demoExt none emptyState).1
     (by intro x hx; simp [emptyState] at hx),
   (location_index_integrity "" "v" none 1 demoExt (some scan1.saved) emptyState).2.2
     (by intro x hx; simp [emptyState] at hx)⟩

theorem nearby_story_type (s : ScanState) (e : Env) (today : SDate) (k : Nat)
    (st : Story) (k' : Nat) (h : generateNearbyDaysStory s e today k = (some st, k')) :
    st.type = StoryType.years_ago := by
  simp only [generateNearbyDaysStory] at h
  split at h
  · exact absurd h (by simp)
  · simp only [Prod.mk.injEq, Option.some.injEq] at h
    rw [← h.1]

theorem yearsAgo_story_type (s : ScanState) (e : Env) (td : Option SDate) (k : Nat)
    (st : Story) (k' : Nat) (h : generateYearsAgoStory s e td k = (some st, k')) :
    st.type = StoryType.years_ago := by
  simp only [generateYearsAgoStory] at h
  split at h
  · exact nearby_story_type _ _ _ _ _ _ h
  · split at h
    · exact absurd h (by simp)
    · split at h
      · exact absurd h (by simp)
      · simp only [Prod.mk.injEq, Option.some.injEq] at h
        rw [← h.1]

theorem createPeopleStory_type (e : Env) (names : List String) (photos : List Photo) (k : Nat) :
    (createPeopleStory e names photos k).1.type = StoryType.people_together := rfl

theorem peopleTogether_story_type (s : ScanState) (e : Env) (k : Nat)
    (st : Story) (k' : Nat) (h : generatePeopleTogetherStory s e k = (some st, k')) :
    st.type = StoryType.people_together := by
  simp only [generatePeopleTogetherStory] at h
  split at h
  · exact absurd h (by simp)
  · split at h
    · split at h
      · split at h
        · exact absurd h (by simp)
        · simp only [Prod.mk.injEq, Option.some.injEq] at h
          rw [← h.1, createPeopleStory_type]
      · exact absurd h (by simp)
    · simp only [Prod.mk.injEq, Option.some.injEq] at h
      rw [← h.1, createPeopleStory_type]

theorem location_story_type (s : ScanState) (e : Env) (k : Nat)
    (st : Story) (k' : Nat) (h : generateLocationStory s e k = Except.ok (some st, k')) :
    st.type = StoryType.location := by
  simp only [generateLocationStory] at h
  split at h
  · exact absurd h (by simp)
  · split at h
    · exact absurd h (by simp)
    · split at h
      · exact absurd h (by simp)
      · simp only [Except.ok.injEq, Prod.mk.injEq, Option.some.injEq] at h
        rw [← h.1]

theorem season_story_type (s : ScanState) (e : Env) (k : Nat)
    (st : Story) (k' : Nat) (h : generateSeasonStory s e k = (some st, k')) :
    st.type = StoryType.season := by
  simp only [generateSeasonStory] at h
  repeat' split at h
  all_goals
    first
      | exact Option.noConfusion (congrArg Prod.fst h)
      | exact (Option.some.inj (congrArg Prod.fst h)) ▸ rfl

/-- The type of the story carried by a successful, non-absent generator
result. -/
def okStoryType : Except String (Option Story × Nat) → Option StoryType
  | Except.ok (some st, _) => some st.type
  | _ => none

/-- C10 confirmed: for every corpus state, clock and random source,
`generateRandomStory()` never produces a story of type `random`: the draw
`storyTypes[Math.floor(Math.random() * 4)]` always lands on one of the four
named generators (the switch's `default` fallback to
`generateRandomPhotosStory` is dead code), and when the chosen generator
yields no story the result is absence, not a random-photos story. -/
theorem generateRandomStory_never_random (s : ScanState) (e : Env) (k : Nat) :
    okStoryType (generateRandomStory s e k) ≠ some StoryType.random := by
  have h4 : jsRandIdx e.g k 4 < 4 := Nat.mod_lt _ (by norm_num)
  simp only [generateRandomStory]
  by_cases h0 : jsRandIdx e.g k 4 = 0
  · rw [if_pos h0]
    cases hy : generateYearsAgoStory s e none (k + 1) with
    | mk st? k' =>
      cases st? with
      | none => simp [okStoryType]
      | some st =>
        have := yearsAgo_story_type s e none (k + 1) st k' hy
        simp [okStoryType, this]
  · rw [if_neg h0]
    by_cases h1 : jsRandIdx e.g k 4 = 1
    · rw [if_pos h1]
      cases hy : generatePeopleTogetherStory s e (k + 1) with
      | mk st? k' =>
        cases st? with
        | none => simp [okStoryType]
        | some st =>
          have := peopleTogether_story_type s e (k + 1) st k' hy
          simp [okStoryType, this]
    · rw [if_neg h1]
      by_cases h2 : jsRandIdx e.g k 4 = 2
      · rw [if_pos h2]
        cases hy : generateLocationStory s e (k + 1) with
        | error msg => simp [okStoryType]
        | ok p =>
          obtain ⟨st?, k'⟩ := p
          cases st? with
          | none => simp [okStoryType]
          | some st =>
            have := location_story_type s e (k + 1) st k' hy
            simp [okStoryType, this]
      · rw [if_neg h2]
        by_cases h3 : jsRandIdx e.g k 4 = 3
        · rw [if_pos h3]
          cases hy : generateSeasonStory s e (k + 1) with
          | mk st? k' =>
            cases st? with
            | none => simp [okStoryType]
            | some st =>
              have := season_story_type s e (k + 1) st k' hy
              simp [okStoryType, this]
        · omega

end SyPhotos
